import Mathlib

/-!
The file ossl_digest.c: the digest object of the Ruby OpenSSL binding

A shallow embedding of `ext/openssl/ossl_digest.c`.

* A Ruby `OpenSSL::Digest` object is a typed-data wrapper: a frozen flag and a
  data pointer (`RTYPEDDATA_DATA`) that is either `NULL` or an owned
  `EVP_MD_CTX`.  Objects live in a heap indexed by reference, so that object
  identity (`self == other`) and in-place mutation are explicit.
* Every C function becomes a function from the heap to an outcome (a value or
  a raised exception) paired with the heap it leaves behind.  The heap is
  returned on the raising path as well, because several functions write to the
  object before they raise.
* libcrypto is not part of the file.  Its fallible primitives are the fields of
  `Backend`; each returns its C status together with the context it leaves.
  What a primitive does on success is stated as a hypothesis (`Backend.Lawful`)
  only where a property needs it.
-/

namespace OsslDigest

/-! ## Values of the host runtime -/

/-- Byte strings: the payload of a Ruby `String`, one natural number per byte. -/
abbrev Bytes := List Nat

/-- Exception classes raised by the code of this file or by the runtime calls it makes. -/
inductive ExnClass where
  | RuntimeError
  | DigestError
  | FrozenError
  | ArgumentError
  deriving DecidableEq, Repr

/-- A raised exception.  `msg` is the text handed to `ossl_raise` by this file;
it is `none` when the file passes `NULL` or when the text is chosen by the
runtime (`rb_check_frozen`, `StringValueCStr`, `rb_str_new`, ...). -/
structure Exn where
  cls : ExnClass
  msg : Option String
  deriving DecidableEq, Repr

/-- Outcome of a call: a returned value or a raised exception. -/
inductive Res (α : Type) where
  | ok (v : α)
  | error (e : Exn)
  deriving DecidableEq, Repr

/-! ## The libcrypto side -/

/-- An algorithm descriptor (`const EVP_MD *` when non-NULL): short name,
output size and block size in bytes. -/
structure EVP_MD where
  name : String
  md_size : Nat
  block_size : Nat
  deriving DecidableEq, Repr

/-- An `EVP_MD_CTX`, seen through what the binding can observe of it: the
descriptor slot (`NULL` until an initialisation succeeds) and the input
absorbed since the last initialisation. -/
structure EVP_MD_CTX where
  digest : Option EVP_MD
  absorbed : Bytes
  deriving DecidableEq, Repr

/-- The fallible primitives of libcrypto used by the file.  A status is the C
`int` result; a context result is the state the primitive leaves in the
context it was given (it is mutated in place in C). -/
structure Backend where
  /-- Lookup by `const char *`; `none` is `NULL`. -/
  EVP_get_digestbyname : String → Option EVP_MD
  /-- Parse a text to an `ASN1_OBJECT` (identified here by a number); `none` is `NULL`. -/
  OBJ_txt2obj : String → Option Nat
  /-- Lookup by `ASN1_OBJECT *`, which may be `NULL`. -/
  EVP_get_digestbyobj : Option Nat → Option EVP_MD
  /-- Allocation of a context; `none` is `NULL`. -/
  EVP_MD_CTX_new : Option EVP_MD_CTX
  /-- Arguments: context and descriptor pointer (the engine argument is always `NULL`). -/
  EVP_DigestInit_ex : EVP_MD_CTX → Option EVP_MD → Int × EVP_MD_CTX
  /-- Arguments: context and the bytes to absorb. -/
  EVP_DigestUpdate : EVP_MD_CTX → Bytes → Int × EVP_MD_CTX
  /-- Result: status, the bytes written to the output pointer, the context left. -/
  EVP_DigestFinal_ex : EVP_MD_CTX → Int × Bytes × EVP_MD_CTX
  /-- Arguments: destination `out`, source `in`; result: status and the destination left. -/
  EVP_MD_CTX_copy : EVP_MD_CTX → EVP_MD_CTX → Int × EVP_MD_CTX

/-- Accessor `EVP_MD_CTX_get0_md`: the descriptor slot of the context. -/
def EVP_MD_CTX_get0_md (ctx : EVP_MD_CTX) : Option EVP_MD := ctx.digest

/-- Accessor `EVP_MD_CTX_size`: the output size of the bound descriptor, `-1` when none is bound. -/
def EVP_MD_CTX_size (ctx : EVP_MD_CTX) : Int :=
  match EVP_MD_CTX_get0_md ctx with
  | some md => (md.md_size : Int)
  | none => -1

/-- Accessor `EVP_MD_CTX_block_size`: the block size of the bound descriptor, `-1` when none is bound. -/
def EVP_MD_CTX_block_size (ctx : EVP_MD_CTX) : Int :=
  match EVP_MD_CTX_get0_md ctx with
  | some md => (md.block_size : Int)
  | none => -1

/-- Accessor `EVP_MD_name`: the short name of a descriptor, `NULL` for a `NULL` descriptor. -/
def EVP_MD_name (md : Option EVP_MD) : Option String := md.map EVP_MD.name

/-- The success contract of the primitives, as libcrypto documents it: a
successful initialisation binds the descriptor and empties the absorbed input,
a successful update appends, a successful copy makes the destination equal to
the source, and a fresh context has no descriptor. -/
structure Backend.Lawful (B : Backend) : Prop where
  new_fresh : ∀ c, B.EVP_MD_CTX_new = some c → c = ⟨none, []⟩
  init_ok : ∀ c m, (B.EVP_DigestInit_ex c (some m)).1 ≠ 0 →
    (B.EVP_DigestInit_ex c (some m)).2 = ⟨some m, []⟩
  update_ok : ∀ c d, (B.EVP_DigestUpdate c d).1 ≠ 0 →
    (B.EVP_DigestUpdate c d).2 = ⟨c.digest, c.absorbed ++ d⟩
  copy_ok : ∀ o i, (B.EVP_MD_CTX_copy o i).1 ≠ 0 → (B.EVP_MD_CTX_copy o i).2 = i

/-! ## The heap of the host runtime -/

/-- A wrapped digest object: `TypedData_Wrap_Struct(klass, &ossl_digest_type, ctx)`
plus the frozen bit of the object header. -/
structure RDigest where
  frozen : Bool
  ctx : Option EVP_MD_CTX
  deriving DecidableEq, Repr

/-- A Ruby `String` object used as an output buffer. -/
structure RString where
  frozen : Bool
  bytes : Bytes
  deriving DecidableEq, Repr

/-- The part of the object space the file works on: digest objects and string
buffers by reference, and the next free reference of each kind. -/
structure State where
  objs : Nat → RDigest
  nextObj : Nat
  strs : Nat → RString
  nextStr : Nat

/-- A `VALUE` passed where the file accepts either a `String` or a digest object. -/
inductive VALUE where
  | str (s : String)
  | obj (ref : Nat)
  deriving DecidableEq, Repr

/-- Replace the digest object stored at `r`. -/
def State.setObj (st : State) (r : Nat) (o : RDigest) : State :=
  { st with objs := fun k => if k = r then o else st.objs k }

/-- The assignment `RTYPEDDATA_DATA(obj) = ctx`; the frozen bit is untouched. -/
def State.setCtx (st : State) (r : Nat) (c : Option EVP_MD_CTX) : State :=
  st.setObj r { st.objs r with ctx := c }

/-- Replace the string object stored at `r`. -/
def State.setStr (st : State) (r : Nat) (s : RString) : State :=
  { st with strs := fun k => if k = r then s else st.strs k }

/-- The runtime call `StringValueCStr`: the bytes of the string as a C string;
raises `ArgumentError` when the string holds a NUL byte. -/
def StringValueCStr (s : String) : Res String :=
  if Char.ofNat 0 ∈ s.data then .error ⟨.ArgumentError, none⟩ else .ok s

/-- The runtime call `rb_str_resize`: truncate or extend to `len` bytes. -/
def rb_str_resize (b : Bytes) (len : Nat) : Bytes :=
  b.take len ++ List.replicate (len - b.length) 0

/-- A write of `out` through the pointer `RSTRING_PTR(str)`: the first bytes of
the buffer are replaced, its length is not changed. -/
def writeBytes (buf out : Bytes) : Bytes :=
  out.take buf.length ++ buf.drop out.length

/-! ## The functions of ossl_digest.c -/

/-- The macro `GetDigest(obj, ctx)`: fetch the data pointer and raise
`RuntimeError` when it is `NULL`. -/
def GetDigest (st : State) (obj : Nat) : Res EVP_MD_CTX :=
  match (st.objs obj).ctx with
  | none => .error ⟨.RuntimeError, some "Digest CTX wasn't initialized!"⟩
  | some ctx => .ok ctx

/-- Function `ossl_evp_get_digestbyname` (lines 44-70).  The result is the
`const EVP_MD *` returned, `none` standing for `NULL`. -/
def ossl_evp_get_digestbyname (B : Backend) (st : State) (obj : VALUE) :
    Res (Option EVP_MD) :=
  match obj with
  | .str s =>
    match StringValueCStr s with
    | .error e => .error e
    | .ok name =>
      let md := B.EVP_get_digestbyname name
      let md := match md with
        | some m => some m
        | none => B.EVP_get_digestbyobj (B.OBJ_txt2obj name)
      match md with
      | none => .error ⟨.RuntimeError, some ("Unsupported digest algorithm (" ++ s ++ ").")⟩
      | some m => .ok (some m)
  | .obj r =>
    match GetDigest st r with
    | .error e => .error e
    | .ok ctx => .ok (EVP_MD_CTX_get0_md ctx)

/-- Function `ossl_digest_alloc` (lines 93-97): a new, unfrozen wrapper whose data pointer is `NULL`. -/
def ossl_digest_alloc (st : State) : Nat × State :=
  (st.nextObj, { st.setObj st.nextObj ⟨false, none⟩ with nextObj := st.nextObj + 1 })

/-- Function `ossl_digest_new` (lines 72-88). -/
def ossl_digest_new (B : Backend) (st : State) (md : Option EVP_MD) : Res Nat × State :=
  let (ret, st1) := ossl_digest_alloc st
  match B.EVP_MD_CTX_new with
  | none => (.error ⟨.DigestError, some "EVP_MD_CTX_new"⟩, st1)
  | some ctx =>
    let r := B.EVP_DigestInit_ex ctx md
    let st2 := st1.setCtx ret (some r.2)
    if r.1 = 0 then (.error ⟨.DigestError, some "Digest initialization failed"⟩, st2)
    else (.ok ret, st2)

/-- Function `ossl_digest_update` (lines 201-213).  `data` is already a byte
string, so `StringValue(data)` does nothing. -/
def ossl_digest_update (B : Backend) (st : State) (self : Nat) (data : Bytes) :
    Res Nat × State :=
  match GetDigest st self with
  | .error e => (.error e, st)
  | .ok ctx =>
    let r := B.EVP_DigestUpdate ctx data
    let st1 := st.setCtx self (some r.2)
    if r.1 = 0 then (.error ⟨.DigestError, some "EVP_DigestUpdate"⟩, st1)
    else (.ok self, st1)

/-- Function `ossl_digest_initialize` (lines 118-141).  `type` is the first
argument, `data` the optional second one (`none` for `nil`). -/
def ossl_digest_initialize (B : Backend) (st : State) (self : Nat) (type : VALUE)
    (data : Option Bytes) : Res Nat × State :=
  match ossl_evp_get_digestbyname B st type with
  | .error e => (.error e, st)
  | .ok md =>
    let got : Option (EVP_MD_CTX × State) :=
      match (st.objs self).ctx with
      | some ctx => some (ctx, st)
      | none =>
        match B.EVP_MD_CTX_new with
        | some ctx => some (ctx, st.setCtx self (some ctx))
        | none => none
    match got with
    | none => (.error ⟨.DigestError, some "EVP_MD_CTX_new"⟩, st.setCtx self none)
    | some (ctx, st1) =>
      let r := B.EVP_DigestInit_ex ctx md
      let st2 := st1.setCtx self (some r.2)
      if r.1 = 0 then (.error ⟨.DigestError, some "Digest initialization failed"⟩, st2)
      else
        match data with
        | some d => ossl_digest_update B st2 self d
        | none => (.ok self, st2)

/-- Function `ossl_digest_copy` (lines 143-163), registered as `initialize_copy`. -/
def ossl_digest_copy (B : Backend) (st : State) (self other : Nat) : Res Nat × State :=
  if (st.objs self).frozen then (.error ⟨.FrozenError, none⟩, st)
  else if self = other then (.ok self, st)
  else
    let got : Option (EVP_MD_CTX × State) :=
      match (st.objs self).ctx with
      | some ctx1 => some (ctx1, st)
      | none =>
        match B.EVP_MD_CTX_new with
        | some ctx1 => some (ctx1, st.setCtx self (some ctx1))
        | none => none
    match got with
    | none => (.error ⟨.DigestError, some "EVP_MD_CTX_new"⟩, st.setCtx self none)
    | some (ctx1, st1) =>
      match GetDigest st1 other with
      | .error e => (.error e, st1)
      | .ok ctx2 =>
        let r := B.EVP_MD_CTX_copy ctx1 ctx2
        let st2 := st1.setCtx self (some r.2)
        if r.1 = 0 then (.error ⟨.DigestError, none⟩, st2)
        else (.ok self, st2)

/-- Function `ossl_digest_reset` (lines 173-184). -/
def ossl_digest_reset (B : Backend) (st : State) (self : Nat) : Res Nat × State :=
  match GetDigest st self with
  | .error e => (.error e, st)
  | .ok ctx =>
    let r := B.EVP_DigestInit_ex ctx (EVP_MD_CTX_get0_md ctx)
    let st1 := st.setCtx self (some r.2)
    if r.1 ≠ 1 then (.error ⟨.DigestError, some "Digest initialization failed."⟩, st1)
    else (.ok self, st1)

/-- Function `ossl_digest_finish` (lines 220-243).  `str` is the optional
buffer argument (`none` for `nil`); the result is the reference of the string
returned. -/
def ossl_digest_finish (B : Backend) (st : State) (self : Nat) (str : Option Nat) :
    Res Nat × State :=
  match GetDigest st self with
  | .error e => (.error e, st)
  | .ok ctx =>
    let out_len := EVP_MD_CTX_size ctx
    let buf : Res (Nat × State) :=
      match str with
      | none =>
        if out_len < 0 then .error ⟨.ArgumentError, none⟩
        else
          .ok (st.nextStr,
            { st.setStr st.nextStr ⟨false, List.replicate out_len.toNat 0⟩ with
              nextStr := st.nextStr + 1 })
      | some s =>
        if (st.strs s).frozen then .error ⟨.FrozenError, none⟩
        else if out_len < 0 then .error ⟨.ArgumentError, none⟩
        else .ok (s, st.setStr s ⟨false, rb_str_resize (st.strs s).bytes out_len.toNat⟩)
    match buf with
    | .error e => (.error e, st)
    | .ok (s, st1) =>
      let r := B.EVP_DigestFinal_ex ctx
      let st2 := (st1.setStr s { st1.strs s with bytes := writeBytes (st1.strs s).bytes r.2.1 }).setCtx
        self (some r.2.2)
      if r.1 = 0 then (.error ⟨.DigestError, some "EVP_DigestFinal_ex"⟩, st2)
      else (.ok s, st2)

/-- Function `ossl_digest_name` (lines 256-264).  `rb_str_new_cstr` raises
`ArgumentError` when handed `NULL`. -/
def ossl_digest_name (st : State) (self : Nat) : Res String :=
  match GetDigest st self with
  | .error e => .error e
  | .ok ctx =>
    match EVP_MD_name (EVP_MD_CTX_get0_md ctx) with
    | none => .error ⟨.ArgumentError, none⟩
    | some n => .ok n

/-- Function `ossl_digest_size` (lines 278-286), registered as `digest_length`. -/
def ossl_digest_size (st : State) (self : Nat) : Res Int :=
  match GetDigest st self with
  | .error e => .error e
  | .ok ctx => .ok (EVP_MD_CTX_size ctx)

/-- Function `ossl_digest_block_length` (lines 301-309). -/
def ossl_digest_block_length (st : State) (self : Nat) : Res Int :=
  match GetDigest st self with
  | .error e => .error e
  | .ok ctx => .ok (EVP_MD_CTX_block_size ctx)

/-! ## Derived operations used to state properties -/

/-- The bytes a caller obtains from `finish` without a buffer: the content of
the string returned, or the exception raised. -/
def finishBytes (B : Backend) (st : State) (self : Nat) : Res Bytes :=
  match ossl_digest_finish B st self none with
  | (.ok s, st1) => .ok (st1.strs s).bytes
  | (.error e, _) => .error e

/-- Sequencing of calls: the next call runs on the value and heap of the
previous one, and a raised exception ends the sequence. -/
def andThen {α β : Type} (r : Res α × State) (f : α → State → Res β × State) :
    Res β × State :=
  match r with
  | (.ok v, st) => f v st
  | (.error e, st) => (.error e, st)

/-- The call `finish` without a buffer, with the content of the returned string as its value. -/
def finishValue (B : Backend) (self : Nat) (st : State) : Res Bytes × State :=
  match ossl_digest_finish B st self none with
  | (.ok s, st1) => (.ok (st1.strs s).bytes, st1)
  | (.error e, st1) => (.error e, st1)

/-- The expression `d.update(x).reset().update(y).finish()` of the specification. -/
def update_reset_update_finish (B : Backend) (st : State) (d : Nat) (x y : Bytes) : Res Bytes :=
  (andThen (andThen (andThen (ossl_digest_update B st d x)
    (fun d1 s => ossl_digest_reset B s d1))
    (fun d2 s => ossl_digest_update B s d2 y))
    (fun d3 s => finishValue B d3 s)).1

/-- The expression `new(A).update(y).finish()` of the specification. -/
def new_update_finish (B : Backend) (st : State) (A : EVP_MD) (y : Bytes) : Res Bytes :=
  (andThen (andThen (ossl_digest_new B st (some A))
    (fun d1 s => ossl_digest_update B s d1 y))
    (fun d2 s => finishValue B d2 s)).1

/-- Resolution of a name as the specification words it: the name lookup, then
the lookup by parsed OID, then `RuntimeError` quoting the input. -/
def resolve_spec (B : Backend) (s : String) : Res (Option EVP_MD) :=
  match B.EVP_get_digestbyname s with
  | some m => .ok (some m)
  | none =>
    match B.EVP_get_digestbyobj (B.OBJ_txt2obj s) with
    | some m => .ok (some m)
    | none => .error ⟨.RuntimeError, some ("Unsupported digest algorithm (" ++ s ++ ").")⟩

/-- Construction as the specification words it for a given `data`: `init(name)`
followed by a single `update(data)`. -/
def init_then_update (B : Backend) (st : State) (self : Nat) (type : VALUE)
    (data : Bytes) : Res Nat × State :=
  match  ossl_digest_initialize B st self type none with
  | (.ok _, st1) => ossl_digest_update B st1 self data
  | (.error e, st1) => (.error e, st1)

/-- The same heap with the frozen bit of object `r` cleared. -/
def State.thaw (st : State) (r : Nat) : State :=
  st.setObj r { st.objs r with frozen := false }

/-! ## A small concrete backend and heaps, for closed instances -/

/-- Descriptor used in examples: SHA-256. -/
def sha256 : EVP_MD := ⟨"SHA256", 32, 64⟩

/-- Descriptor used in examples: SHA-1. -/
def sha1 : EVP_MD := ⟨"SHA1", 20, 64⟩

/-- Descriptor used in examples: MD4, which the example backend can look up
but refuses to initialise (a legacy algorithm that is not loaded); the failing
call leaves the descriptor in the slot of the context. -/
def md4 : EVP_MD := ⟨"MD4", 16, 64⟩

/-- A stand-in for the hash function: `md_size` copies of the byte sum of the input. -/
def toyHash (md : EVP_MD) (input : Bytes) : Bytes :=
  List.replicate md.md_size (input.foldl (fun a b => (a + b) % 256) 0)

/-- An example backend that follows the libcrypto contract: primitives fail
on a context without a descriptor, and MD4 cannot be initialised. -/
def refBackend : Backend where
  EVP_get_digestbyname := fun n =>
    if n = "SHA256" ∨ n = "sha256" then some sha256
    else if n = "SHA1" then some sha1
    else if n = "MD4" then some md4
    else none
  OBJ_txt2obj := fun n => if n = "2.16.840.1.101.3.4.2.1" then some 672 else none
  EVP_get_digestbyobj := fun o => if o = some 672 then some sha256 else none
  EVP_MD_CTX_new := some ⟨none, []⟩
  EVP_DigestInit_ex := fun c md =>
    match md with
    | some m => if m = md4 then (0, ⟨some m, []⟩) else (1, ⟨some m, []⟩)
    | none =>
      match c.digest with
      | some m => (1, ⟨some m, []⟩)
      | none => (0, c)
  EVP_DigestUpdate := fun c d =>
    match c.digest with
    | some _ => (1, ⟨c.digest, c.absorbed ++ d⟩)
    | none => (0, c)
  EVP_DigestFinal_ex := fun c =>
    match c.digest with
    | some m => (1, toyHash m c.absorbed, c)
    | none => (0, [], c)
  EVP_MD_CTX_copy := fun o i =>
    match i.digest with
    | some _ => (1, i)
    | none => (0, o)

/-- A heap with two allocated digest objects, 0 and 1, given explicitly. -/
def heap2 (a b : RDigest) : State where
  objs := fun k => if k = 0 then a else b
  nextObj := 2
  strs := fun _ => ⟨false, [1, 2, 3]⟩
  nextStr := 1


/-! ## Helper lemmas -/

/-- The exception of the `GetDigest` guard. -/
def notInitialized : Exn := ⟨.RuntimeError, some "Digest CTX wasn't initialized!"⟩

theorem getDigest_none {st : State} {r : Nat} (h : (st.objs r).ctx = none) :
    GetDigest st r = .error notInitialized := by
  simp [GetDigest, h, notInitialized]

theorem getDigest_some {st : State} {r : Nat} {c : EVP_MD_CTX} (h : (st.objs r).ctx = some c) :
    GetDigest st r = .ok c := by
  simp [GetDigest, h]

theorem getDigest_thaw (st : State) (r : Nat) : GetDigest (st.thaw r) r = GetDigest st r := by
  simp [GetDigest, State.thaw, State.setObj]

@[simp] theorem setCtx_objs_same (st : State) (r : Nat) (c : Option EVP_MD_CTX) :
    ((st.setCtx r c).objs r) = ⟨(st.objs r).frozen, c⟩ := by
  simp [State.setCtx, State.setObj]

@[simp] theorem setCtx_objs_other (st : State) (r k : Nat) (c : Option EVP_MD_CTX) (h : k ≠ r) :
    ((st.setCtx r c).objs k) = st.objs k := by
  simp [State.setCtx, State.setObj, h]

@[simp] theorem setCtx_strs (st : State) (r : Nat) (c : Option EVP_MD_CTX) :
    (st.setCtx r c).strs = st.strs := rfl

@[simp] theorem setCtx_nextStr (st : State) (r : Nat) (c : Option EVP_MD_CTX) :
    (st.setCtx r c).nextStr = st.nextStr := rfl

@[simp] theorem setCtx_nextObj (st : State) (r : Nat) (c : Option EVP_MD_CTX) :
    (st.setCtx r c).nextObj = st.nextObj := rfl

/-! ## C1 : name resolution -/

/-- C1 (as stated, refuted): the string "SHA256" followed by a NUL byte is a
string for which neither lookup of the example backend finds a descriptor, yet
the call raises `ArgumentError` from `StringValueCStr`, not the `RuntimeError`
of the stated resolution order. -/
theorem ossl_evp_get_digestbyname_nul_counterexample :
    ossl_evp_get_digestbyname refBackend (heap2 ⟨false, none⟩ ⟨false, none⟩) (.str "SHA256\x00")
        = .error ⟨.ArgumentError, none⟩ ∧
      resolve_spec refBackend "SHA256\x00"
        = .error ⟨.RuntimeError, some "Unsupported digest algorithm (SHA256\x00)."⟩ ∧
      ossl_evp_get_digestbyname refBackend (heap2 ⟨false, none⟩ ⟨false, none⟩) (.str "SHA256\x00")
        ≠ resolve_spec refBackend "SHA256\x00" := by
  decide

/-- C1 (amended): for every string without a NUL byte, `ossl_evp_get_digestbyname`
follows the stated order: the descriptor of the name lookup if there is one,
otherwise the descriptor of the lookup by parsed OID if there is one, otherwise
`RuntimeError` (not `DigestError`) with a message that contains the input. -/
theorem ossl_evp_get_digestbyname_str (B : Backend) (st : State) (s : String)
    (h : Char.ofNat 0 ∉ s.data) :
    ossl_evp_get_digestbyname B st (.str s) = resolve_spec B s ∧
    (∀ m, B.EVP_get_digestbyname s = some m →
      ossl_evp_get_digestbyname B st (.str s) = .ok (some m)) ∧
    (∀ m, B.EVP_get_digestbyname s = none → B.EVP_get_digestbyobj (B.OBJ_txt2obj s) = some m →
      ossl_evp_get_digestbyname B st (.str s) = .ok (some m)) ∧
    (B.EVP_get_digestbyname s = none → B.EVP_get_digestbyobj (B.OBJ_txt2obj s) = none →
      ∃ e, ossl_evp_get_digestbyname B st (.str s) = .error e ∧ e.cls = .RuntimeError ∧
        ∃ pre post, e.msg = some (pre ++ s ++ post)) := by
  have hs : StringValueCStr s = .ok s := by simp [StringValueCStr, h]
  refine ⟨?_, ?_, ?_, ?_⟩
  · simp only [ossl_evp_get_digestbyname, resolve_spec, hs]
    cases h1 : B.EVP_get_digestbyname s with
    | some m => rfl
    | none =>
      cases h2 : B.EVP_get_digestbyobj (B.OBJ_txt2obj s) with
      | some m => rfl
      | none => rfl
  · intro m h1
    simp [ossl_evp_get_digestbyname, hs, h1]
  · intro m h1 h2
    simp [ossl_evp_get_digestbyname, hs, h1, h2]
  · intro h1 h2
    refine ⟨⟨.RuntimeError, some ("Unsupported digest algorithm (" ++ s ++ ").")⟩, ?_, rfl,
      "Unsupported digest algorithm (", ").", rfl⟩
    simp [ossl_evp_get_digestbyname, hs, h1, h2]

/-- C1 (amended), instance: the dotted OID of SHA-256 is not a name of the
example backend and resolves through the OID lookup. -/
theorem ossl_evp_get_digestbyname_str_witness :
    ossl_evp_get_digestbyname refBackend (heap2 ⟨false, none⟩ ⟨false, none⟩)
        (.str "2.16.840.1.101.3.4.2.1") = resolve_spec refBackend "2.16.840.1.101.3.4.2.1" ∧
      resolve_spec refBackend "2.16.840.1.101.3.4.2.1" = .ok (some sha256) :=
  ⟨(ossl_evp_get_digestbyname_str refBackend (heap2 ⟨false, none⟩ ⟨false, none⟩)
      "2.16.840.1.101.3.4.2.1" (by decide)).1, by decide⟩

/-! ## C3 and C2 : the frozen check -/

/-- C3: on a frozen target `ossl_digest_copy` raises `FrozenError` for every
argument `other` (the target itself and a context-less object included) and
returns the heap exactly as it was: data pointer, descriptor and absorbed
input of the target are untouched and no context is allocated. -/
theorem ossl_digest_copy_frozen (B : Backend) (st : State) (self other : Nat)
    (h : (st.objs self).frozen = true) :
    ossl_digest_copy B st self other = (.error ⟨.FrozenError, none⟩, st) := by
  simp [ossl_digest_copy, h]

/-- C3, instance: a frozen object without a context, copied from itself. -/
theorem ossl_digest_copy_frozen_witness :
    ossl_digest_copy refBackend (heap2 ⟨true, none⟩ ⟨false, none⟩) 0 0
      = (.error ⟨.FrozenError, none⟩, heap2 ⟨true, none⟩ ⟨false, none⟩) :=
  ossl_digest_copy_frozen refBackend (heap2 ⟨true, none⟩ ⟨false, none⟩) 0 0 (by decide)

/-- C2 (as stated, refuted): `update` on a frozen SHA-256 object returns the
object and absorbs the bytes; no `FrozenError` is raised and the context changes. -/
theorem ossl_digest_update_frozen_counterexample :
    ((heap2 ⟨true, some ⟨some sha256, []⟩⟩ ⟨false, none⟩).objs 0).frozen = true ∧
      (ossl_digest_update refBackend (heap2 ⟨true, some ⟨some sha256, []⟩⟩ ⟨false, none⟩) 0
        [97, 98]).1 = .ok 0 ∧
      ((ossl_digest_update refBackend (heap2 ⟨true, some ⟨some sha256, []⟩⟩ ⟨false, none⟩) 0
        [97, 98]).2.objs 0).ctx = some ⟨some sha256, [97, 98]⟩ := by
  decide

/-- C2 (amended): of the mutating operations only `ossl_digest_copy` checks the
frozen bit: on a frozen object it raises `FrozenError` and leaves the heap
unchanged.  `update`, `reset` and `finish` never read the bit: on a frozen
object they have the outcome, and leave the context, that they have on the
same object unfrozen. -/
theorem frozen_checked_by_copy_only (B : Backend) (st : State) (self other : Nat)
    (data : Bytes) (str : Option Nat) (h : (st.objs self).frozen = true) :
    ossl_digest_copy B st self other = (.error ⟨.FrozenError, none⟩, st) ∧
    ((ossl_digest_update B st self data).1 = (ossl_digest_update B (st.thaw self) self data).1 ∧
      ((ossl_digest_update B st self data).2.objs self).ctx
        = ((ossl_digest_update B (st.thaw self) self data).2.objs self).ctx) ∧
    ((ossl_digest_reset B st self).1 = (ossl_digest_reset B (st.thaw self) self).1 ∧
      ((ossl_digest_reset B st self).2.objs self).ctx
        = ((ossl_digest_reset B (st.thaw self) self).2.objs self).ctx) ∧
    ((ossl_digest_finish B st self str).1 = (ossl_digest_finish B (st.thaw self) self str).1 ∧
      ((ossl_digest_finish B st self str).2.objs self).ctx
        = ((ossl_digest_finish B (st.thaw self) self str).2.objs self).ctx) := by
  refine ⟨by simp [ossl_digest_copy, h], ?_, ?_, ?_⟩
  · simp only [ossl_digest_update, getDigest_thaw]
    cases hc : GetDigest st self with
    | error e =>
      have : (st.objs self).ctx = none := by
        unfold GetDigest at hc; split at hc <;> simp_all
      simp [State.thaw, State.setObj, this]
    | ok c => dsimp only; split <;> simp
  · simp only [ossl_digest_reset, getDigest_thaw]
    cases hc : GetDigest st self with
    | error e =>
      have : (st.objs self).ctx = none := by
        unfold GetDigest at hc; split at hc <;> simp_all
      simp [State.thaw, State.setObj, this]
    | ok c => dsimp only; split <;> simp
  · have hth : (st.thaw self).strs = st.strs := rfl
    have hthn : (st.thaw self).nextStr = st.nextStr := rfl
    cases hctx : (st.objs self).ctx with
    | none =>
      simp only [ossl_digest_finish, getDigest_thaw, getDigest_none hctx]
      simp [State.thaw, State.setObj, hctx]
    | some c =>
      simp only [ossl_digest_finish, getDigest_thaw, getDigest_some hctx, hth, hthn]
      cases str with
      | none =>
        by_cases hl : EVP_MD_CTX_size c < 0 <;>
        by_cases hr : (B.EVP_DigestFinal_ex c).1 = 0 <;>
        simp [hl, hr, State.thaw, State.setObj, State.setStr, hctx]
      | some s =>
        cases hf : (st.strs s).frozen <;>
        by_cases hl : EVP_MD_CTX_size c < 0 <;>
        by_cases hr : (B.EVP_DigestFinal_ex c).1 = 0 <;>
        simp [hl, hr, hf, State.thaw, State.setObj, State.setStr, hctx]

/-- C2 (amended), instance: a frozen SHA-256 object and a second object to copy from. -/
theorem frozen_checked_by_copy_only_witness :
    ossl_digest_copy refBackend (heap2 ⟨true, some ⟨some sha256, [1]⟩⟩ ⟨false, some ⟨some sha1, []⟩⟩) 0 1
      = (.error ⟨.FrozenError, none⟩,
          heap2 ⟨true, some ⟨some sha256, [1]⟩⟩ ⟨false, some ⟨some sha1, []⟩⟩) :=
  (frozen_checked_by_copy_only refBackend
    (heap2 ⟨true, some ⟨some sha256, [1]⟩⟩ ⟨false, some ⟨some sha1, []⟩⟩) 0 1 [7] none
    (by decide)).1

/-! ## C7 : objects without a context -/

/-- C7 (as stated, refuted): copying from a source without a context does not
always raise `RuntimeError`: onto a frozen target it raises `FrozenError`, and
when the source is the target itself it returns without raising. -/
theorem ossl_digest_copy_empty_source_counterexample :
    ((heap2 ⟨true, none⟩ ⟨false, none⟩).objs 1).ctx = none ∧
      (ossl_digest_copy refBackend (heap2 ⟨true, none⟩ ⟨false, none⟩) 0 1).1
        = .error ⟨.FrozenError, none⟩ ∧
      (ossl_digest_copy refBackend (heap2 ⟨true, none⟩ ⟨false, none⟩) 1 1).1 = .ok 1 := by
  decide

/-- C7 (amended): on an object without a context, `update`, `finish`, `reset`,
`name`, `digest_length` and `block_length` each raise `RuntimeError` and leave
the heap unchanged (so the object still has no context).  `ossl_digest_copy`
from such a source raises `RuntimeError` when the target is another object, is
not frozen, and has a context or can be given one; the source stays without a
context. -/
theorem no_context_raises_runtime_error (B : Backend) (st : State) (self : Nat)
    (data : Bytes) (str : Option Nat) (h : (st.objs self).ctx = none) :
    ossl_digest_update B st self data = (.error notInitialized, st) ∧
    ossl_digest_finish B st self str = (.error notInitialized, st) ∧
    ossl_digest_reset B st self = (.error notInitialized, st) ∧
    ossl_digest_name st self = .error notInitialized ∧
    ossl_digest_size st self = .error notInitialized ∧
    ossl_digest_block_length st self = .error notInitialized ∧
    notInitialized.cls = .RuntimeError ∧
    (∀ tgt, tgt ≠ self → (st.objs tgt).frozen = false →
      ((st.objs tgt).ctx ≠ none ∨ B.EVP_MD_CTX_new ≠ none) →
      (ossl_digest_copy B st tgt self).1 = .error notInitialized ∧
      ((ossl_digest_copy B st tgt self).2.objs self).ctx = none) := by
  refine ⟨?_, ?_, ?_, ?_, ?_, ?_, rfl, ?_⟩
  · simp [ossl_digest_update, getDigest_none h]
  · simp [ossl_digest_finish, getDigest_none h]
  · simp [ossl_digest_reset, getDigest_none h]
  · simp [ossl_digest_name, getDigest_none h]
  · simp [ossl_digest_size, getDigest_none h]
  · simp [ossl_digest_block_length, getDigest_none h]
  · intro tgt hne hfz hav
    have hne2 : self ≠ tgt := fun e => hne e.symm
    cases hc : (st.objs tgt).ctx with
    | some c1 =>
      simp [ossl_digest_copy, hfz, hne, hc, getDigest_none h, h]
    | none =>
      cases hn : B.EVP_MD_CTX_new with
      | none => simp [hc, hn] at hav
      | some c1 =>
        have h2 : ((st.setCtx tgt (some c1)).objs self).ctx = none := by
          rw [setCtx_objs_other _ _ _ _ hne2]; exact h
        simp [ossl_digest_copy, hfz, hne, hc, hn, getDigest_none h2, h2]

/-- C7 (amended), instance: object 1 has no context, object 0 is an unfrozen
SHA-1 object used as the copy target. -/
theorem no_context_raises_runtime_error_witness :
    ossl_digest_update refBackend (heap2 ⟨false, some ⟨some sha1, []⟩⟩ ⟨false, none⟩) 1 [5]
      = (.error notInitialized, heap2 ⟨false, some ⟨some sha1, []⟩⟩ ⟨false, none⟩) :=
  (no_context_raises_runtime_error refBackend
    (heap2 ⟨false, some ⟨some sha1, []⟩⟩ ⟨false, none⟩) 1 [5] none (by decide)).1

/-! ## C4 : a failing initialisation -/

/-- C4 (the code where the claim fails): when the backend initialisation call
fails, `initialize` and `ossl_digest_new` do raise `DigestError` with the
message "Digest initialization failed", but the object is not left without a
context: the context the failed call ran on (the one the object had, or the
one attached to it just before the call) stays attached.  The `GetDigest`
guard therefore passes afterwards, and `update`, `finish`, `digest_length`,
`block_length` and `name` do not raise the `RuntimeError` they raise on a
never-initialised object; what they do instead is left to the backend.  This
holds for every backend. -/
theorem init_failure_keeps_context (B : Backend) (st : State) (self : Nat) (type : VALUE)
    (data : Option Bytes) (md : Option EVP_MD) (c : EVP_MD_CTX)
    (hres : ossl_evp_get_digestbyname B st type = .ok md)
    (hctx : (st.objs self).ctx = some c ∨
      ((st.objs self).ctx = none ∧ B.EVP_MD_CTX_new = some c))
    (hfail : (B.EVP_DigestInit_ex c md).1 = 0) :
    (( ossl_digest_initialize B st self type data).1
        = .error ⟨.DigestError, some "Digest initialization failed"⟩ ∧
      ( ossl_digest_initialize B st self type data).2.objs self
        = ⟨(st.objs self).frozen, some (B.EVP_DigestInit_ex c md).2⟩ ∧
      ∀ k, k ≠ self → ( ossl_digest_initialize B st self type data).2.objs k = st.objs k) ∧
    (GetDigest ( ossl_digest_initialize B st self type data).2 self
        = .ok (B.EVP_DigestInit_ex c md).2 ∧
      (∀ d, (ossl_digest_update B ( ossl_digest_initialize B st self type data).2 self d).1
        ≠ .error notInitialized) ∧
      (∀ str, (ossl_digest_finish B ( ossl_digest_initialize B st self type data).2 self str).1
        ≠ .error notInitialized) ∧
      ossl_digest_size ( ossl_digest_initialize B st self type data).2 self
        ≠ .error notInitialized ∧
      ossl_digest_block_length ( ossl_digest_initialize B st self type data).2 self
        ≠ .error notInitialized ∧
      ossl_digest_name ( ossl_digest_initialize B st self type data).2 self
        ≠ .error notInitialized) ∧
    (B.EVP_MD_CTX_new = some c →
      (ossl_digest_new B st md).1 = .error ⟨.DigestError, some "Digest initialization failed"⟩ ∧
      (ossl_digest_new B st md).2.objs st.nextObj = ⟨false, some (B.EVP_DigestInit_ex c md).2⟩ ∧
      ∀ k, k ≠ st.nextObj → (ossl_digest_new B st md).2.objs k = st.objs k) := by
  have hobj : ( ossl_digest_initialize B st self type data).2.objs self
      = ⟨(st.objs self).frozen, some (B.EVP_DigestInit_ex c md).2⟩ := by
    rcases hctx with hc | ⟨hc, hn⟩
    · simp [ ossl_digest_initialize, hres, hc, hfail]
    · simp [ ossl_digest_initialize, hres, hc, hn, hfail]
  have hsome : (( ossl_digest_initialize B st self type data).2.objs self).ctx
      = some (B.EVP_DigestInit_ex c md).2 := by rw [hobj]
  refine ⟨⟨?_, hobj, ?_⟩, ⟨getDigest_some hsome, ?_, ?_, ?_, ?_, ?_⟩, ?_⟩
  · rcases hctx with hc | ⟨hc, hn⟩
    · simp [ ossl_digest_initialize, hres, hc, hfail]
    · simp [ ossl_digest_initialize, hres, hc, hn, hfail]
  · intro k hk
    rcases hctx with hc | ⟨hc, hn⟩
    · simp [ ossl_digest_initialize, hres, hc, hfail, hk]
    · simp [ ossl_digest_initialize, hres, hc, hn, hfail, hk]
  · intro d
    by_cases hr : (B.EVP_DigestUpdate (B.EVP_DigestInit_ex c md).2 d).1 = 0 <;>
    simp [ossl_digest_update, getDigest_some hsome, hr, notInitialized]
  · intro str
    generalize ( ossl_digest_initialize B st self type data).2 = S at hsome
    generalize (B.EVP_DigestInit_ex c md).2 = c1 at hsome
    cases str with
    | none =>
      by_cases hl : EVP_MD_CTX_size c1 < 0 <;>
      by_cases hr : (B.EVP_DigestFinal_ex c1).1 = 0 <;>
      simp [ossl_digest_finish, getDigest_some hsome, hl, hr, notInitialized]
    | some b =>
      cases hf : (S.strs b).frozen <;>
      by_cases hl : EVP_MD_CTX_size c1 < 0 <;>
      by_cases hr : (B.EVP_DigestFinal_ex c1).1 = 0 <;>
      simp [ossl_digest_finish, getDigest_some hsome, hl, hr, hf, notInitialized]
  · simp [ossl_digest_size, getDigest_some hsome]
  · simp [ossl_digest_block_length, getDigest_some hsome]
  · cases hnm : EVP_MD_name (EVP_MD_CTX_get0_md (B.EVP_DigestInit_ex c md).2) <;>
    simp [ossl_digest_name, getDigest_some hsome, hnm, notInitialized]
  · intro hn
    refine ⟨?_, ?_, ?_⟩
    · simp [ossl_digest_new, ossl_digest_alloc, hn, hfail]
    · simp [ossl_digest_new, ossl_digest_alloc, hn, hfail, State.setCtx, State.setObj]
    · intro k hk
      simp [ossl_digest_new, ossl_digest_alloc, hn, hfail, State.setCtx, State.setObj, hk]

/-- C4, instance: object 0 was never initialised, so `digest_length` raises
`RuntimeError` on it.  `initialize` with a name whose initialisation the
backend refuses raises `DigestError` with the stated message, and afterwards
`digest_length` on the object no longer raises that `RuntimeError`. -/
theorem init_failure_keeps_context_witness :
    ossl_digest_size (heap2 ⟨false, none⟩ ⟨false, none⟩) 0 = .error notInitialized ∧
      ( ossl_digest_initialize refBackend (heap2 ⟨false, none⟩ ⟨false, none⟩) 0 (.str "MD4") none).1
        = .error ⟨.DigestError, some "Digest initialization failed"⟩ ∧
      ossl_digest_size
        ( ossl_digest_initialize refBackend (heap2 ⟨false, none⟩ ⟨false, none⟩) 0 (.str "MD4") none).2
        0 ≠ .error notInitialized :=
  have h := init_failure_keeps_context refBackend (heap2 ⟨false, none⟩ ⟨false, none⟩) 0
    (.str "MD4") none (some md4) ⟨none, []⟩ (by decide) (Or.inr ⟨by decide, rfl⟩) (by decide)
  ⟨by decide, h.1.1, h.2.1.2.2.2.1⟩

/-! ## C5 : the descriptor of a digest object -/

/-- The object branch of `ossl_evp_get_digestbyname`: the guard looks at the
data pointer only, and the descriptor slot of the context is returned as it is. -/
theorem ossl_evp_get_digestbyname_obj (B : Backend) (st : State) (r : Nat) :
    ossl_evp_get_digestbyname B st (.obj r) =
      match (st.objs r).ctx with
      | none => .error notInitialized
      | some c => .ok c.digest := by
  cases h : (st.objs r).ctx with
  | none => simp [ossl_evp_get_digestbyname, getDigest_none h]
  | some c => simp [ossl_evp_get_digestbyname, getDigest_some h, EVP_MD_CTX_get0_md]

/-- C5 (the code at the failing input): objects 0 and 1 have no context.
Copying 1 into 0 raises `RuntimeError` but leaves object 0 with an allocated
context that has no descriptor; resolving object 0 then returns the `NULL`
descriptor without raising. -/
theorem ossl_evp_get_digestbyname_unbound_context :
    (ossl_digest_copy refBackend (heap2 ⟨false, none⟩ ⟨false, none⟩) 0 1).1
        = .error notInitialized ∧
      ((ossl_digest_copy refBackend (heap2 ⟨false, none⟩ ⟨false, none⟩) 0 1).2.objs 0).ctx
        = some ⟨none, []⟩ ∧
      ossl_evp_get_digestbyname refBackend
        (ossl_digest_copy refBackend (heap2 ⟨false, none⟩ ⟨false, none⟩) 0 1).2 (.obj 0)
        = .ok none := by
  decide

/-! ## C6 : the length of the result of finish -/

theorem writeBytes_length (buf out : Bytes) : (writeBytes buf out).length = buf.length := by
  simp only [writeBytes, List.length_append, List.length_take, List.length_drop]
  omega

theorem rb_str_resize_length (b : Bytes) (len : Nat) : (rb_str_resize b len).length = len := by
  simp only [rb_str_resize, List.length_append, List.length_take, List.length_replicate]
  omega

/-- C6: on an object whose context has descriptor `md` bound, `digest_length`
reports `md.md_size`; whenever `finish` returns, the string returned has exactly
that many bytes, and it is the buffer supplied (whatever its previous length) or
else a new string; and `finish` does return when the buffer, if any, is not
frozen and the backend call succeeds. -/
theorem ossl_digest_finish_length (B : Backend) (st : State) (self : Nat) (str : Option Nat)
    (c : EVP_MD_CTX) (md : EVP_MD)
    (hctx : (st.objs self).ctx = some c) (hmd : c.digest = some md) :
    ossl_digest_size st self = .ok (md.md_size : Int) ∧
    (∀ s, (ossl_digest_finish B st self str).1 = .ok s →
      (((ossl_digest_finish B st self str).2.strs s).bytes.length : Int) = (md.md_size : Int) ∧
      (∀ b, str = some b → s = b) ∧ (str = none → s = st.nextStr)) ∧
    ((∀ b, str = some b → (st.strs b).frozen = false) → (B.EVP_DigestFinal_ex c).1 ≠ 0 →
      ∃ s, (ossl_digest_finish B st self str).1 = .ok s) := by
  have hsz : EVP_MD_CTX_size c = (md.md_size : Int) := by
    simp [EVP_MD_CTX_size, EVP_MD_CTX_get0_md, hmd]
  have hnn : ¬ ((md.md_size : Int) < 0) := by omega
  refine ⟨?_, ?_, ?_⟩
  · simp [ossl_digest_size, getDigest_some hctx, hsz]
  · intro s hs
    cases str with
    | none =>
      by_cases hr : (B.EVP_DigestFinal_ex c).1 = 0
      · simp [ossl_digest_finish, getDigest_some hctx, hsz, hnn, hr] at hs
      · simp only [ossl_digest_finish, getDigest_some hctx, hsz, hnn, hr, if_false] at hs ⊢
        simp only [Res.ok.injEq] at hs
        subst hs
        simp [State.setStr, writeBytes_length]
    | some b =>
      cases hf : (st.strs b).frozen with
      | true => simp [ossl_digest_finish, getDigest_some hctx, hf] at hs
      | false =>
        by_cases hr : (B.EVP_DigestFinal_ex c).1 = 0
        · simp [ossl_digest_finish, getDigest_some hctx, hsz, hnn, hr, hf] at hs
        · simp only [ossl_digest_finish, getDigest_some hctx, hsz, hnn, hr, hf, if_false] at hs ⊢
          simp at hs
          subst hs
          simp [State.setStr, writeBytes_length, rb_str_resize_length]
  · intro hbuf hfin
    cases str with
    | none =>
      exact ⟨st.nextStr, by simp [ossl_digest_finish, getDigest_some hctx, hsz, hnn, hfin]⟩
    | some b =>
      have hf := hbuf b rfl
      exact ⟨b, by simp [ossl_digest_finish, getDigest_some hctx, hsz, hnn, hfin, hf]⟩

/-- C6, instance: a SHA-1 object finished into a three-byte buffer; the buffer
comes back with twenty bytes. -/
theorem ossl_digest_finish_length_witness :
    ossl_digest_size (heap2 ⟨false, some ⟨some sha1, [1, 2]⟩⟩ ⟨false, none⟩) 0 = .ok 20 ∧
      (ossl_digest_finish refBackend (heap2 ⟨false, some ⟨some sha1, [1, 2]⟩⟩ ⟨false, none⟩) 0
        (some 0)).1 = .ok 0 ∧
      ((ossl_digest_finish refBackend (heap2 ⟨false, some ⟨some sha1, [1, 2]⟩⟩ ⟨false, none⟩) 0
        (some 0)).2.strs 0).bytes.length = 20 :=
  ⟨(ossl_digest_finish_length refBackend (heap2 ⟨false, some ⟨some sha1, [1, 2]⟩⟩ ⟨false, none⟩)
      0 (some 0) ⟨some sha1, [1, 2]⟩ sha1 (by decide) rfl).1, by decide, by decide⟩

/-! ## Frame and congruence lemmas -/

theorem refBackend_lawful : refBackend.Lawful where
  new_fresh := by
    intro c h
    simp [refBackend] at h
    exact h.symm
  init_ok := by
    intro c m h
    by_cases hm : m = md4
    · simp [refBackend, hm] at h
    · simp [refBackend, hm]
  update_ok := by
    intro c d h
    cases hd : c.digest with
    | none => simp [refBackend, hd] at h
    | some m => simp [refBackend, hd]
  copy_ok := by
    intro o i h
    cases hd : i.digest with
    | none => simp [refBackend, hd] at h
    | some m => simp [refBackend, hd]

theorem finishBytes_some (B : Backend) (st : State) (r : Nat) (c : EVP_MD_CTX)
    (h : (st.objs r).ctx = some c) :
    finishBytes B st r =
      if EVP_MD_CTX_size c < 0 then .error ⟨.ArgumentError, none⟩
      else if (B.EVP_DigestFinal_ex c).1 = 0 then
        .error ⟨.DigestError, some "EVP_DigestFinal_ex"⟩
      else .ok (writeBytes (List.replicate (EVP_MD_CTX_size c).toNat 0) (B.EVP_DigestFinal_ex c).2.1) := by
  by_cases hl : EVP_MD_CTX_size c < 0 <;>
  by_cases hr : (B.EVP_DigestFinal_ex c).1 = 0 <;>
  simp [finishBytes, ossl_digest_finish, getDigest_some h, hl, hr, State.setStr]

theorem finishBytes_none (B : Backend) (st : State) (r : Nat) (h : (st.objs r).ctx = none) :
    finishBytes B st r = .error notInitialized := by
  simp [finishBytes, ossl_digest_finish, getDigest_none h]

/-- The bytes `finish` yields depend on the context of the object only. -/
theorem finishBytes_congr (B : Backend) (st st1 : State) (r r1 : Nat)
    (h : (st.objs r).ctx = (st1.objs r1).ctx) : finishBytes B st r = finishBytes B st1 r1 := by
  cases hc : (st.objs r).ctx with
  | none => rw [finishBytes_none B st r hc, finishBytes_none B st1 r1 (h ▸ hc)]
  | some c => rw [finishBytes_some B st r c hc, finishBytes_some B st1 r1 c (h ▸ hc)]

theorem finishValue_fst (B : Backend) (st : State) (r : Nat) :
    (finishValue B r st).1 = finishBytes B st r := by
  simp only [finishValue, finishBytes]
  split <;> simp_all

/-- The call `update` touches no object but its receiver. -/
theorem ossl_digest_update_frame (B : Backend) (st : State) (self k : Nat) (data : Bytes)
    (hk : k ≠ self) : (ossl_digest_update B st self data).2.objs k = st.objs k := by
  cases hc : (st.objs self).ctx with
  | none => simp [ossl_digest_update, getDigest_none hc]
  | some c =>
    by_cases hr : (B.EVP_DigestUpdate c data).1 = 0 <;>
    simp [ossl_digest_update, getDigest_some hc, hr, hk]

/-- What `update` does on an object with a context when the backend call succeeds. -/
theorem ossl_digest_update_ok (B : Backend) (st : State) (self : Nat) (data : Bytes)
    (c : EVP_MD_CTX) (hc : (st.objs self).ctx = some c)
    (hr : (B.EVP_DigestUpdate c data).1 ≠ 0) :
    ossl_digest_update B st self data
      = (.ok self, st.setCtx self (some (B.EVP_DigestUpdate c data).2)) := by
  simp [ossl_digest_update, getDigest_some hc, hr]

/-- What `reset` does on an object with a context when the backend call returns 1. -/
theorem ossl_digest_reset_ok (B : Backend) (st : State) (self : Nat) (c : EVP_MD_CTX)
    (hc : (st.objs self).ctx = some c) (hr : (B.EVP_DigestInit_ex c c.digest).1 = 1) :
    ossl_digest_reset B st self
      = (.ok self, st.setCtx self (some (B.EVP_DigestInit_ex c c.digest).2)) := by
  simp [ossl_digest_reset, getDigest_some hc, EVP_MD_CTX_get0_md, hr]

/-- What `ossl_digest_new` does when allocation and initialisation succeed. -/
theorem ossl_digest_new_ok (B : Backend) (st : State) (md : Option EVP_MD) (c0 : EVP_MD_CTX)
    (hn : B.EVP_MD_CTX_new = some c0) (hr : (B.EVP_DigestInit_ex c0 md).1 ≠ 0) :
    ossl_digest_new B st md
      = (.ok st.nextObj,
          (ossl_digest_alloc st).2.setCtx st.nextObj (some (B.EVP_DigestInit_ex c0 md).2)) := by
  simp [ossl_digest_new, ossl_digest_alloc, hn, hr]

/-! ## C8 : reset -/

/-- C8: let `d` be an object initialised with algorithm `A` (with any input
absorbed so far), and let the backend calls for `A` succeed.  Then `reset`
returns `d`, leaves it bound to `A` with nothing absorbed, and leaves `name`,
`digest_length` and `block_length` as they were; and
`d.update(x).reset().update(y).finish()` equals `new(A).update(y).finish()`,
both being the digest of a context of `A` that absorbed exactly `y`. -/
theorem reset_discards_input (B : Backend) (st : State) (d : Nat) (A : EVP_MD)
    (inp x y : Bytes) (hB : B.Lawful)
    (hd : (st.objs d).ctx = some ⟨some A, inp⟩)
    (hnew : B.EVP_MD_CTX_new ≠ none)
    (hinit : ∀ c, (B.EVP_DigestInit_ex c (some A)).1 = 1)
    (hupd : ∀ c data, c.digest = some A → (B.EVP_DigestUpdate c data).1 ≠ 0) :
    update_reset_update_finish B st d x y = new_update_finish B st A y ∧
    new_update_finish B st A y = finishBytes B (st.setCtx d (some ⟨some A, y⟩)) d ∧
    (ossl_digest_reset B st d).1 = .ok d ∧
    ((ossl_digest_reset B st d).2.objs d).ctx = some ⟨some A, []⟩ ∧
    (ossl_digest_name (ossl_digest_reset B st d).2 d = ossl_digest_name st d ∧
      ossl_digest_name st d = .ok A.name) ∧
    (ossl_digest_size (ossl_digest_reset B st d).2 d = ossl_digest_size st d ∧
      ossl_digest_size st d = .ok (A.md_size : Int)) ∧
    (ossl_digest_block_length (ossl_digest_reset B st d).2 d = ossl_digest_block_length st d ∧
      ossl_digest_block_length st d = .ok (A.block_size : Int)) := by
  have hne0 : ∀ c, (B.EVP_DigestInit_ex c (some A)).1 ≠ 0 := by
    intro c; rw [hinit c]; decide
  have hI : ∀ c, (B.EVP_DigestInit_ex c (some A)).2 = ⟨some A, []⟩ :=
    fun c => hB.init_ok c A (hne0 c)
  have hU : ∀ i data, (B.EVP_DigestUpdate ⟨some A, i⟩ data).2 = ⟨some A, i ++ data⟩ :=
    fun i data => hB.update_ok ⟨some A, i⟩ data (hupd _ data rfl)
  -- the reset of `d` in `st`
  have hreset : ossl_digest_reset B st d = (.ok d, st.setCtx d (some ⟨some A, []⟩)) := by
    rw [ossl_digest_reset_ok B st d ⟨some A, inp⟩ hd (hinit _), hI]
  -- left chain
  have h1 : ossl_digest_update B st d x = (.ok d, st.setCtx d (some ⟨some A, inp ++ x⟩)) := by
    rw [ossl_digest_update_ok B st d x ⟨some A, inp⟩ hd (hupd _ x rfl), hU]
  have h2 : ossl_digest_reset B (st.setCtx d (some ⟨some A, inp ++ x⟩)) d
      = (.ok d, (st.setCtx d (some ⟨some A, inp ++ x⟩)).setCtx d (some ⟨some A, []⟩)) := by
    rw [ossl_digest_reset_ok B _ d ⟨some A, inp ++ x⟩ (by simp) (hinit _), hI]
  have h3 : ossl_digest_update B
      ((st.setCtx d (some ⟨some A, inp ++ x⟩)).setCtx d (some ⟨some A, []⟩)) d y
      = (.ok d, ((st.setCtx d (some ⟨some A, inp ++ x⟩)).setCtx d (some ⟨some A, []⟩)).setCtx d
          (some ⟨some A, y⟩)) := by
    rw [ossl_digest_update_ok B _ d y ⟨some A, []⟩ (by simp) (hupd _ y rfl), hU]
    simp
  have hL : update_reset_update_finish B st d x y
      = finishBytes B (st.setCtx d (some ⟨some A, y⟩)) d := by
    simp only [update_reset_update_finish, andThen, h1, h2, h3, finishValue_fst]
    exact finishBytes_congr B _ _ d d (by simp)
  -- right chain
  obtain ⟨c0, hc0⟩ := Option.ne_none_iff_exists'.mp hnew
  have h4 := ossl_digest_new_ok B st (some A) c0 hc0 (hne0 c0)
  rw [hI] at h4
  have h5 : ossl_digest_update B
      ((ossl_digest_alloc st).2.setCtx st.nextObj (some ⟨some A, []⟩)) st.nextObj y
      = (.ok st.nextObj, ((ossl_digest_alloc st).2.setCtx st.nextObj (some ⟨some A, []⟩)).setCtx
          st.nextObj (some ⟨some A, y⟩)) := by
    rw [ossl_digest_update_ok B _ st.nextObj y ⟨some A, []⟩ (by simp) (hupd _ y rfl), hU]
    simp
  have hR : new_update_finish B st A y
      = finishBytes B (st.setCtx d (some ⟨some A, y⟩)) d := by
    simp only [new_update_finish, andThen, h4, h5, finishValue_fst]
    exact finishBytes_congr B _ _ _ d (by simp)
  refine ⟨by rw [hL, hR], hR, by rw [hreset], by rw [hreset]; simp, ?_, ?_, ?_⟩
  · rw [hreset]
    simp [ossl_digest_name, GetDigest, hd, EVP_MD_name, EVP_MD_CTX_get0_md]
  · rw [hreset]
    simp [ossl_digest_size, GetDigest, hd, EVP_MD_CTX_size, EVP_MD_CTX_get0_md]
  · rw [hreset]
    simp [ossl_digest_block_length, GetDigest, hd, EVP_MD_CTX_block_size, EVP_MD_CTX_get0_md]

theorem refBackend_init_sha256 (c : EVP_MD_CTX) :
    (refBackend.EVP_DigestInit_ex c (some sha256)).1 = 1 := by
  simp [refBackend, sha256, md4]

theorem refBackend_update_sha256 (c : EVP_MD_CTX) (data : Bytes) (h : c.digest = some sha256) :
    (refBackend.EVP_DigestUpdate c data).1 ≠ 0 := by
  simp [refBackend, h]

/-- C8, instance: a SHA-256 object that absorbed [1], then [2, 3], reset, then
[4, 5], against a new SHA-256 object that absorbed [4, 5]: both give 32 bytes 9. -/
theorem reset_discards_input_witness :
    update_reset_update_finish refBackend
        (heap2 ⟨false, some ⟨some sha256, [1]⟩⟩ ⟨false, none⟩) 0 [2, 3] [4, 5]
      = new_update_finish refBackend (heap2 ⟨false, some ⟨some sha256, [1]⟩⟩ ⟨false, none⟩)
          sha256 [4, 5] ∧
    new_update_finish refBackend (heap2 ⟨false, some ⟨some sha256, [1]⟩⟩ ⟨false, none⟩)
        sha256 [4, 5] = .ok (List.replicate 32 9) :=
  ⟨(reset_discards_input refBackend (heap2 ⟨false, some ⟨some sha256, [1]⟩⟩ ⟨false, none⟩) 0
      sha256 [1] [2, 3] [4, 5] refBackend_lawful (by decide) (by decide)
      refBackend_init_sha256 refBackend_update_sha256).1, by decide⟩

/-! ## C9 : copying -/

/-- C9: let the target be unfrozen, with or without a context of its own, and
the source a different object with context `c2`; let the target have, or be
given, a context and the backend copy succeed.  Then `ossl_digest_copy` returns
the target, the target's context equals `c2` (same descriptor, same absorbed
input), the source object is unchanged, `finish` yields the same bytes on both,
and an `update` on either object changes neither the other object nor what
`finish` yields on it. -/
theorem ossl_digest_copy_deep (B : Backend) (st : State) (self other : Nat)
    (c1 c2 : EVP_MD_CTX) (hB : B.Lawful) (hne : self ≠ other)
    (hfz : (st.objs self).frozen = false)
    (hsrc : (st.objs other).ctx = some c2)
    (htgt : (st.objs self).ctx = some c1 ∨
      ((st.objs self).ctx = none ∧ B.EVP_MD_CTX_new = some c1))
    (hcp : (B.EVP_MD_CTX_copy c1 c2).1 ≠ 0) :
    (ossl_digest_copy B st self other).1 = .ok self ∧
    ((ossl_digest_copy B st self other).2.objs self).ctx = some c2 ∧
    (ossl_digest_copy B st self other).2.objs other = st.objs other ∧
    finishBytes B (ossl_digest_copy B st self other).2 self
      = finishBytes B (ossl_digest_copy B st self other).2 other ∧
    (∀ data,
      (ossl_digest_update B (ossl_digest_copy B st self other).2 self data).2.objs other
        = st.objs other ∧
      finishBytes B (ossl_digest_update B (ossl_digest_copy B st self other).2 self data).2 other
        = finishBytes B (ossl_digest_copy B st self other).2 other) ∧
    (∀ data,
      (ossl_digest_update B (ossl_digest_copy B st self other).2 other data).2.objs self
        = (ossl_digest_copy B st self other).2.objs self ∧
      finishBytes B (ossl_digest_update B (ossl_digest_copy B st self other).2 other data).2 self
        = finishBytes B (ossl_digest_copy B st self other).2 self) := by
  have hne2 : other ≠ self := fun e => hne e.symm
  have hlaw : (B.EVP_MD_CTX_copy c1 c2).2 = c2 := hB.copy_ok c1 c2 hcp
  obtain ⟨S, hS, hSself, hSother⟩ : ∃ S, ossl_digest_copy B st self other = (.ok self, S) ∧
      (S.objs self).ctx = some c2 ∧ S.objs other = st.objs other := by
    rcases htgt with hc | ⟨hc, hn⟩
    · refine ⟨st.setCtx self (some c2), ?_, by simp, by simp [hne2]⟩
      simp [ossl_digest_copy, hfz, hne, hc, getDigest_some hsrc, hcp, hlaw]
    · have h2 : ((st.setCtx self (some c1)).objs other).ctx = some c2 := by
        rw [setCtx_objs_other _ _ _ _ hne2]; exact hsrc
      refine ⟨(st.setCtx self (some c1)).setCtx self (some c2), ?_, by simp, by simp [hne2]⟩
      simp [ossl_digest_copy, hfz, hne, hc, hn, getDigest_some h2, hcp, hlaw]
  rw [hS]
  refine ⟨rfl, hSself, hSother, ?_, ?_, ?_⟩
  · exact finishBytes_congr B S S self other (by rw [hSself, hSother, hsrc])
  · intro data
    have hf := ossl_digest_update_frame B S self other data hne2
    exact ⟨by rw [hf, hSother], finishBytes_congr B _ _ other other (by rw [hf])⟩
  · intro data
    have hf := ossl_digest_update_frame B S other self data hne
    exact ⟨hf, finishBytes_congr B _ _ self self (by rw [hf])⟩

/-- C9, instance: an unfrozen object without a context becomes a copy of a
SHA-256 object that absorbed [1, 2]; the source is unchanged. -/
theorem ossl_digest_copy_deep_witness :
    (ossl_digest_copy refBackend (heap2 ⟨false, none⟩ ⟨false, some ⟨some sha256, [1, 2]⟩⟩) 0 1).1
        = .ok 0 ∧
      ((ossl_digest_copy refBackend (heap2 ⟨false, none⟩ ⟨false, some ⟨some sha256, [1, 2]⟩⟩) 0
        1).2.objs 0).ctx = some ⟨some sha256, [1, 2]⟩ ∧
      (ossl_digest_copy refBackend (heap2 ⟨false, none⟩ ⟨false, some ⟨some sha256, [1, 2]⟩⟩) 0
        1).2.objs 1 = (heap2 ⟨false, none⟩ ⟨false, some ⟨some sha256, [1, 2]⟩⟩).objs 1 :=
  have h := ossl_digest_copy_deep refBackend
    (heap2 ⟨false, none⟩ ⟨false, some ⟨some sha256, [1, 2]⟩⟩) 0 1 ⟨none, []⟩
    ⟨some sha256, [1, 2]⟩ refBackend_lawful (by decide) (by decide) (by decide)
    (Or.inr ⟨by decide, rfl⟩) (by decide)
  ⟨h.1, h.2.1, h.2.2.1⟩

/-! ## C10 : construction with initial data -/

/-- C10: for every first argument and every byte string `data`, `initialize`
with `data` is `initialize` without it followed by one `update(data)`: the two
have the same outcome (in particular the same exception when the backend update
fails) and leave the same heap.  `initialize` without data returns its receiver.
When the argument resolves to `m`, the receiver has or is given a context, and
the backend calls succeed, the receiver is returned bound to `m` with exactly
`data` absorbed, whatever it had absorbed before. -/
theorem ossl_digest_initialize_data (B : Backend) (st : State) (self : Nat) (type : VALUE)
    (data : Bytes) :
    ossl_digest_initialize B st self type (some data) = init_then_update B st self type data ∧
    (∀ r, ( ossl_digest_initialize B st self type none).1 = .ok r → r = self) ∧
    (∀ m c, B.Lawful → ossl_evp_get_digestbyname B st type = .ok (some m) →
      ((st.objs self).ctx = some c ∨ ((st.objs self).ctx = none ∧ B.EVP_MD_CTX_new = some c)) →
      (B.EVP_DigestInit_ex c (some m)).1 ≠ 0 →
      ((B.EVP_DigestUpdate ⟨some m, []⟩ data).1 ≠ 0 →
        ( ossl_digest_initialize B st self type (some data)).1 = .ok self ∧
        (( ossl_digest_initialize B st self type (some data)).2.objs self).ctx
          = some ⟨some m, data⟩) ∧
      ((B.EVP_DigestUpdate ⟨some m, []⟩ data).1 = 0 →
        ( ossl_digest_initialize B st self type (some data)).1
          = .error ⟨.DigestError, some "EVP_DigestUpdate"⟩ ∧
        (init_then_update B st self type data).1
          = .error ⟨.DigestError, some "EVP_DigestUpdate"⟩)) := by
  have heq : ossl_digest_initialize B st self type (some data)
      = init_then_update B st self type data := by
    unfold init_then_update ossl_digest_initialize
    cases hres : ossl_evp_get_digestbyname B st type with
    | error e => rfl
    | ok md =>
      cases hc : (st.objs self).ctx with
      | some c =>
        by_cases hr : (B.EVP_DigestInit_ex c md).1 = 0 <;> simp [hr]
      | none =>
        cases hn : B.EVP_MD_CTX_new with
        | none => simp
        | some c =>
          by_cases hr : (B.EVP_DigestInit_ex c md).1 = 0 <;> simp [hr]
  refine ⟨heq, ?_, ?_⟩
  · intro r hr
    unfold ossl_digest_initialize at hr
    cases hres : ossl_evp_get_digestbyname B st type with
    | error e => simp [hres] at hr
    | ok md =>
      cases hc : (st.objs self).ctx with
      | some c =>
        by_cases hi : (B.EVP_DigestInit_ex c md).1 = 0 <;> simp [hres, hc, hi] at hr
        exact hr.symm
      | none =>
        cases hn : B.EVP_MD_CTX_new with
        | none => simp [hres, hc, hn] at hr
        | some c =>
          by_cases hi : (B.EVP_DigestInit_ex c md).1 = 0 <;> simp [hres, hc, hn, hi] at hr
          exact hr.symm
  · intro m c hB hres hctx hi
    have hlaw := hB.init_ok c m hi
    obtain ⟨S, hS, hSc⟩ : ∃ S, ossl_digest_initialize B st self type (some data)
        = ossl_digest_update B S self data ∧ (S.objs self).ctx = some ⟨some m, []⟩ := by
      rcases hctx with hc | ⟨hc, hn⟩
      · exact ⟨st.setCtx self (some ⟨some m, []⟩),
          by simp [ ossl_digest_initialize, hres, hc, hi, hlaw], by simp⟩
      · exact ⟨(st.setCtx self (some c)).setCtx self (some ⟨some m, []⟩),
          by simp [ ossl_digest_initialize, hres, hc, hn, hi, hlaw], by simp⟩
    constructor
    · intro hu
      rw [hS, ossl_digest_update_ok B S self data _ hSc hu, hB.update_ok _ _ hu]
      simp
    · intro hu
      have : (ossl_digest_update B S self data).1
          = .error ⟨.DigestError, some "EVP_DigestUpdate"⟩ := by
        simp [ossl_digest_update, getDigest_some hSc, hu]
      exact ⟨by rw [hS]; exact this, by rw [← heq, hS]; exact this⟩

/-- C10, instance: "SHA256" with data [1, 2] on an object that was a SHA-1
object with [9] absorbed. -/
theorem ossl_digest_initialize_data_witness :
    ossl_digest_initialize refBackend (heap2 ⟨false, some ⟨some sha1, [9]⟩⟩ ⟨false, none⟩) 0
        (.str "SHA256") (some [1, 2])
      = init_then_update refBackend (heap2 ⟨false, some ⟨some sha1, [9]⟩⟩ ⟨false, none⟩) 0
          (.str "SHA256") [1, 2] ∧
    (( ossl_digest_initialize refBackend (heap2 ⟨false, some ⟨some sha1, [9]⟩⟩ ⟨false, none⟩) 0
        (.str "SHA256") (some [1, 2])).2.objs 0).ctx = some ⟨some sha256, [1, 2]⟩ :=
  have h := ossl_digest_initialize_data refBackend
    (heap2 ⟨false, some ⟨some sha1, [9]⟩⟩ ⟨false, none⟩) 0 (.str "SHA256") [1, 2]
  ⟨h.1, ((h.2.2 sha256 ⟨some sha1, [9]⟩ refBackend_lawful (by decide) (Or.inl (by decide))
    (by decide)).1 (by decide)).2⟩

end OsslDigest
